import Mathlib

/-!
# Verification of the ore-xccy-curve repository against its specification

Shallow embedding of the pure logic of the `ore_xccy_curve` Python package:
market-data accessors (`market_data.py`), tenor parsing, factory registries and
the curve-builder pipeline (`curve_builder.py`), handle extraction
(`curve_converters.py` / `converters.py`), ISO-date serialisation
(`curve_savers.py` / `curve_loaders.py` / `converters.py`) and curve loading.

Python strings are modelled as `List Char`, Python floats as `ℚ` (the claims are
about the exact arithmetic formulas, not rounding), fallible code as
`Except String`.  Objects of the external ORE/QuantLib library (term structures,
handles) are modelled opaquely by their query functions; where a claim depends
on external ORE behaviour the model is written from the spec and marked
`Modelled from the spec:`.
-/

namespace OreXccy

/-- A Python string, modelled as its list of characters. -/
abbrev PyStr := List Char

/-- Decidable equality of fallible results, so concrete runs can be checked
by `decide`. -/
instance {ε α : Type} [DecidableEq ε] [DecidableEq α] : DecidableEq (Except ε α)
  | .error a, .error b =>
    if h : a = b then .isTrue (by rw [h]) else .isFalse (by simp [h])
  | .error _, .ok _ => .isFalse (by simp)
  | .ok _, .error _ => .isFalse (by simp)
  | .ok a, .ok b =>
    if h : a = b then .isTrue (by rw [h]) else .isFalse (by simp [h])

/-! ## Model of Python `int()` on decimal strings -/

/-- Numeric value of a decimal digit character. -/
def digitVal (c : Char) : Nat := c.toNat - 48

/-- Decimal value of a digit string, most-significant digit first
(the accumulator fold performed by integer parsing). -/
def digitsVal (s : PyStr) : Nat := s.foldl (fun a c => a * 10 + digitVal c) 0

/-- Python `int()` restricted to unsigned decimal digit strings:
`None` models the `ValueError` raised on a malformed literal. -/
def pyIntNatCore (s : PyStr) : Option Nat :=
  if s ≠ [] ∧ s.all Char.isDigit then some (digitsVal s) else none

/-- Python `int()` on a decimal string with an optional sign;
`None` models the `ValueError` raised on a malformed literal. -/
def pyInt (s : PyStr) : Option Int :=
  match s with
  | [] => none
  | c :: rest =>
    if c = '-' then (pyIntNatCore rest).map (fun n => -(n : Int))
    else if c = '+' then (pyIntNatCore rest).map (fun n => (n : Int))
    else (pyIntNatCore (c :: rest)).map (fun n => (n : Int))

/-! ## Tenor strings and periods (`_tenor_to_period`) -/

/-- Unit of an ORE `Period` (`ore.Weeks` / `ore.Months` / `ore.Years`). -/
inductive TimeUnit where
  | weeks
  | months
  | years
deriving DecidableEq, Repr

/-- An `ore.Period(n, unit)`. -/
structure Period where
  n : Int
  unit : TimeUnit
deriving DecidableEq, Repr

/-- `XCCYCurveBuilder._tenor_to_period` / `OISCurveBuilder._tenor_to_period`
(the two copies in `curve_builder.py` are textually identical):
checks the suffix characters `W`, `M`, `Y` in order (`tenor.endswith(...)`),
parses the prefix with `int(tenor[:-1])`, raising `ValueError` on a
malformed tenor or an unknown suffix. -/
def tenor_to_period (tenor : PyStr) : Except String Period :=
  match tenor.getLast? with
  | some c =>
    if c = 'W' then
      match pyInt tenor.dropLast with
      | some n => .ok ⟨n, .weeks⟩
      | none => .error "invalid literal for int()"
    else if c = 'M' then
      match pyInt tenor.dropLast with
      | some n => .ok ⟨n, .months⟩
      | none => .error "invalid literal for int()"
    else if c = 'Y' then
      match pyInt tenor.dropLast with
      | some n => .ok ⟨n, .years⟩
      | none => .error "invalid literal for int()"
    else .error "Unknown tenor format"
  | none => .error "Unknown tenor format"

/-! ## Dates (`ore.Date` / `datetime.date`) -/

/-- A calendar date as carried by `ore.Date` (day of month, month, year). -/
structure OreDate where
  day : Nat
  month : Nat
  year : Nat
deriving DecidableEq, Repr

/-- Gregorian leap-year rule. -/
def isLeapYear (y : Nat) : Bool := (y % 4 = 0 && y % 100 ≠ 0) || y % 400 = 0

/-- Number of days in a month of a given year. -/
def daysInMonth (m y : Nat) : Nat :=
  if m = 2 then (if isLeapYear y then 29 else 28)
  else if m = 4 ∨ m = 6 ∨ m = 9 ∨ m = 11 then 30
  else 31

/-- The `ore.Date` constructor's validity requirement: QuantLib dates range
over the years 1901–2199 and the day must exist in the month. -/
def validDate (d : OreDate) : Prop :=
  1 ≤ d.day ∧ 1 ≤ d.month ∧ d.month ≤ 12 ∧ 1901 ≤ d.year ∧ d.year ≤ 2199 ∧
    d.day ≤ daysInMonth d.month d.year

instance (d : OreDate) : Decidable (validDate d) := by
  unfold validDate; infer_instance

/-- The `ore.Date(day, month, year)` constructor: validates its arguments,
`none` modelling the exception thrown on an invalid date. -/
def mkOreDate (d m y : Int) : Option OreDate :=
  if 1 ≤ d ∧ 1 ≤ m ∧ m ≤ 12 ∧ 1901 ≤ y ∧ y ≤ 2199 ∧
      d ≤ (daysInMonth m.toNat y.toNat : Int)
  then some ⟨d.toNat, m.toNat, y.toNat⟩ else none

/-- Julian day number of a date (standard civil-calendar formula); the serial
number underlying `ore.Date` day arithmetic, used by day-count conventions. -/
def serialDays (dt : OreDate) : Int :=
  let a : Int := (14 - (dt.month : Int)) / 12
  let y2 : Int := (dt.year : Int) + 4800 - a
  let m2 : Int := (dt.month : Int) + 12 * a - 3
  (dt.day : Int) + (153 * m2 + 2) / 5 + 365 * y2 + y2 / 4 - y2 / 100 + y2 / 400 - 32045

/-- `Actual365Fixed().yearFraction(d1, d2)`: day difference over 365. -/
def yearFraction365 (d1 d2 : OreDate) : ℚ :=
  ((serialDays d2 - serialDays d1 : Int) : ℚ) / 365

/-! ## Market data (`market_data.py`) -/

/-- `FXForwardQuote` (tenor label, forward points in pips). -/
structure FXForwardQuote where
  tenor : PyStr
  forward_points : ℚ
deriving DecidableEq, Repr

/-- `XCCYBasisSwapQuote` (tenor label, basis spread in bps). -/
structure XCCYBasisSwapQuote where
  tenor : PyStr
  basis_spread : ℚ
deriving DecidableEq, Repr

/-- `CurrencyConfig` (currency code, OIS index name, calendar name, day count). -/
structure CurrencyConfig where
  ccy : String
  ois_index_name : String
  calendar_name : String
  day_count : String := "Actual360"
deriving DecidableEq, Repr

/-- `XCCYMarketData` after `__post_init__` has run: `fx_base_ccy` is never
`None` any more (the dataclass field is `Optional[str]`, resolved at
construction). -/
structure XCCYMarketData where
  valuation_date : OreDate
  domestic_ccy : CurrencyConfig
  foreign_ccy : CurrencyConfig
  fx_spot : ℚ
  fx_forwards : List FXForwardQuote
  xccy_basis_swaps : List XCCYBasisSwapQuote
  fx_base_ccy : String
deriving DecidableEq, Repr

/-- Construction of an `XCCYMarketData` dataclass followed by
`__post_init__`: when `fx_base_ccy` is not supplied (`None`), it defaults to
the foreign currency code. -/
def mkXCCYMarketData (valuation_date : OreDate) (domestic_ccy foreign_ccy : CurrencyConfig)
    (fx_spot : ℚ) (fx_forwards : List FXForwardQuote)
    (xccy_basis_swaps : List XCCYBasisSwapQuote)
    (fx_base_ccy : Option String) : XCCYMarketData :=
  { valuation_date := valuation_date
    domestic_ccy := domestic_ccy
    foreign_ccy := foreign_ccy
    fx_spot := fx_spot
    fx_forwards := fx_forwards
    xccy_basis_swaps := xccy_basis_swaps
    fx_base_ccy := fx_base_ccy.getD foreign_ccy.ccy }

/-- `XCCYMarketData.is_fx_base_domestic`: whether the FX base currency code
equals the domestic (collateral) currency code. -/
def is_fx_base_domestic (md : XCCYMarketData) : Bool :=
  md.fx_base_ccy == md.domestic_ccy.ccy

/-- Recursion of the lookup loop in `XCCYMarketData.get_forward_rate`:
return `fx_spot + forward_points / 10000` for the first quote whose tenor
matches, else fall through to the `ValueError`. -/
def get_forward_rate_go (fx_spot : ℚ) (tenor : PyStr) :
    List FXForwardQuote → Except String ℚ
  | [] => .error "Unknown tenor"
  | fwd :: rest =>
    if fwd.tenor = tenor then .ok (fx_spot + fwd.forward_points / 10000)
    else get_forward_rate_go fx_spot tenor rest

/-- `XCCYMarketData.get_forward_rate`. -/
def get_forward_rate (md : XCCYMarketData) (tenor : PyStr) : Except String ℚ :=
  get_forward_rate_go md.fx_spot tenor md.fx_forwards

/-! ## Factory registries (`OISIndexFactory` / `CalendarFactory`)

The registries are Python class-level `Dict[str, Callable]`.  Constructors are
opaque callables; their identity is modelled by a `Nat` tag.  A Python dict is
modelled as an association list with dict-assignment (`d[k] = v`) semantics:
replace the value of an existing key in place, else append. -/

/-- Python dict assignment `reg[name] = v`. -/
def dict_set (reg : List (String × Nat)) (name : String) (v : Nat) :
    List (String × Nat) :=
  match reg with
  | [] => [(name, v)]
  | (k, w) :: rest =>
    if k = name then (k, v) :: rest else (k, w) :: dict_set rest name v

/-- Python dict lookup `reg[name]` / `name in reg`. -/
def dict_get (reg : List (String × Nat)) (name : String) : Option Nat :=
  match reg with
  | [] => none
  | (k, w) :: rest => if k = name then some w else dict_get rest name

/-- `OISIndexFactory.register` / `CalendarFactory.register` (both bodies are
the single statement `cls._REGISTRY[name] = constructor`). -/
def register (reg : List (String × Nat)) (name : String) (constructor : Nat) :
    List (String × Nat) :=
  dict_set reg name constructor

/-! ## The `XCCYCurveBuilder.build` helper-construction pipeline -/

/-- A calibration helper as constructed in `XCCYCurveBuilder.build`:
either an `ore.FxSwapRateHelper` (forward points scaled by 1/10000, tenor
period, `isFxBaseCurrencyCollateralCurrency` flag) or an
`ore.CrossCcyBasisMtMResetSwapHelper` (spread scaled by 1/10000, tenor
period).  The external curve/index/calendar arguments carry no data the
claims depend on and are omitted from the helper record. -/
inductive Helper where
  | fxSwap (fwd_points : ℚ) (period : Period) (is_fx_base_collateral : Bool)
  | xccyBasisMtMReset (spread : ℚ) (period : Period)
deriving DecidableEq, Repr

/-- The helper-construction portion of `XCCYCurveBuilder.build`: one
`FxSwapRateHelper` per FX-forward quote, then one
`CrossCcyBasisMtMResetSwapHelper` per basis-swap quote, in input order.
`_tenor_to_period` may raise (`Except.error`); no other validation is
performed before the helpers are handed to the external bootstrap engine. -/
def build_helpers (md : XCCYMarketData) : Except String (List Helper) :=
  (md.fx_forwards.mapM (fun fwd =>
    (tenor_to_period fwd.tenor).map
      (fun period => Helper.fxSwap (fwd.forward_points / 10000) period
        (is_fx_base_domestic md)))).bind
  (fun fx_helpers =>
    (md.xccy_basis_swaps.mapM (fun swap =>
      (tenor_to_period swap.tenor).map
        (fun period => Helper.xccyBasisMtMReset (swap.basis_spread / 10000) period))).bind
    (fun swap_helpers => .ok (fx_helpers ++ swap_helpers)))

/-! ## External ORE term structures and the builder's query methods -/

/-- Compounding convention selected in `get_zero_rate`
(`ore.Continuous` / `ore.Annual`). -/
inductive Compounding where
  | continuous
  | annual
deriving DecidableEq, Repr

/-- An external ORE `YieldTermStructure`, modelled opaquely by its query
functions (`discount(date)` and `zeroRate(date, dayCount, compounding)`,
the latter computed inside ORE from the discount factors). -/
structure OreCurve where
  discountF : OreDate → ℚ
  zeroRateF : OreDate → Compounding → ℚ

/-- The state of an `XCCYCurveBuilder`: the market data, the three pre-built
input curve handles, and `foreign_xccy_curve`, which is `None` until
`build()` has assigned it. -/
structure XCCYCurveBuilderState where
  market_data : XCCYMarketData
  domestic_discount_curve : OreCurve
  domestic_index_curve : OreCurve
  foreign_index_curve : OreCurve
  foreign_xccy_curve : Option OreCurve

/-- The final assignment of `XCCYCurveBuilder.build`:
`self.foreign_xccy_curve = ore.YieldTermStructureHandle(curve)` (the
lazily-bootstrapped curve object itself is external ORE code). -/
def build_assign (b : XCCYCurveBuilderState) (curve : OreCurve) :
    XCCYCurveBuilderState :=
  { b with foreign_xccy_curve := some curve }

/-- `XCCYCurveBuilder.get_discount_factor`. -/
def get_discount_factor (b : XCCYCurveBuilderState) (target_date : OreDate) :
    Except String ℚ :=
  match b.foreign_xccy_curve with
  | none => .error "XCCY curve not built. Call build() first."
  | some c => .ok (c.discountF target_date)

/-- `XCCYCurveBuilder.get_zero_rate`. -/
def get_zero_rate (b : XCCYCurveBuilderState) (target_date : OreDate)
    (compounding : String) : Except String ℚ :=
  match b.foreign_xccy_curve with
  | none => .error "XCCY curve not built. Call build() first."
  | some c =>
    .ok (c.zeroRateF target_date
      (if compounding = "continuous" then .continuous else .annual))

/-- `XCCYCurveBuilder.get_implied_fx_forward`:
`fx_spot * (df_domestic / df_foreign)`, with no dependence on
`is_fx_base_domestic`. -/
def get_implied_fx_forward (b : XCCYCurveBuilderState) (target_date : OreDate) :
    Except String ℚ :=
  match b.foreign_xccy_curve with
  | none => .error "XCCY curve not built. Call build() first."
  | some c =>
    .ok (b.market_data.fx_spot *
      (b.domestic_discount_curve.discountF target_date / c.discountF target_date))

/-- Modelled from the spec: the orientation-dependent covered-interest-parity
implied forward of sections 4.2 and 8 — `implied_df_ratio = forward_outright
/ fx_spot` with `foreign_df = domestic_df / implied_df_ratio` "or its
reciprocal, per orientation", the orientation switching on
`is_fx_base_domestic`.  Solving for the forward gives `fx_spot *
(domestic_df / foreign_df)` in the base-foreign orientation and its
reciprocal ratio when the FX base is the domestic currency. -/
def spec_implied_fx_forward (is_base_domestic : Bool) (fx_spot df_dom df_for : ℚ) : ℚ :=
  if is_base_domestic then fx_spot * (df_for / df_dom)
  else fx_spot * (df_dom / df_for)

/-- `ore_handle_to_curve` (`curve_converters.py` and `converters.py`, identical
copies): a handle is modelled as `Option OreCurve` — `none` is a handle never
linked to a concrete curve, for which `currentLink()` returns nothing (or ORE
raises `RuntimeError`) and the function raises `ValueError`; a linked handle
yields its underlying curve. -/
def ore_handle_to_curve (handle : Option OreCurve) : Except String OreCurve :=
  match handle with
  | some curve => .ok curve
  | none => .error "Handle is empty - not linked to any curve"

/-! ## ISO-date serialisation (`_ore_date_to_iso` / `_iso_to_ore_date`)

The identical function pairs live in `converters.py`, `curve_savers.py` and
`curve_loaders.py`. -/

/-- Decimal rendering of a natural number (Python `f"{n:d}"`),
most-significant digit first. -/
def natToChars (n : Nat) : PyStr :=
  if n = 0 then ['0'] else ((Nat.digits 10 n).map Nat.digitChar).reverse

/-- Python `f"{n:02d}"`: zero-pad to two characters. -/
def pad2 (n : Nat) : PyStr :=
  if n < 10 then '0' :: natToChars n else natToChars n

/-- `_ore_date_to_iso`: `f"{year}-{month:02d}-{day:02d}"`. -/
def ore_date_to_iso (d : OreDate) : PyStr :=
  natToChars d.year ++ '-' :: (pad2 d.month ++ '-' :: pad2 d.day)

/-- Python `str.split("-")`. -/
def splitDash : PyStr → List PyStr
  | [] => [[]]
  | c :: rest =>
    if c = '-' then [] :: splitDash rest
    else
      match splitDash rest with
      | [] => [[c]]
      | p :: ps => (c :: p) :: ps

/-- `_iso_to_ore_date`: split on `-`, parse the three parts with `int()` and
hand them to `ore.Date(day, month, year)`; `none` models the exceptions
(missing parts, `int()` failure, invalid date). -/
def iso_to_ore_date (s : PyStr) : Option OreDate :=
  match splitDash s with
  | p0 :: p1 :: p2 :: _ =>
    match pyInt p2, pyInt p1, pyInt p0 with
    | some d, some m, some y => mkOreDate d m y
    | _, _, _ => none
  | _ => none

/-! ## Discount curves and CSV loading (`curve_loaders.py`, claim C2)

`ore.DiscountCurve` and `ore.PiecewiseLogLinearDiscount` are external ORE
objects; their interpolation is modelled from the spec (section 4.5):
log-linear interpolation of the discount factor against Actual365Fixed time,
with flat-forward extrapolation along the last segment. -/

/-- An interpolated discount curve: reference date plus
(pillar date, discount factor) nodes. -/
structure DiscountCurveModel where
  refDate : OreDate
  nodes : List (OreDate × ℝ)

/-- One log-linear segment between `(t0, v0)` and `(t1, v1)` evaluated at `t`. -/
noncomputable def log_linear_segment (t0 : ℚ) (v0 : ℝ) (t1 : ℚ) (v1 : ℝ) (t : ℚ) : ℝ :=
  Real.exp ((((t1 - t) / (t1 - t0) : ℚ) : ℝ) * Real.log v0 +
    (((t - t0) / (t1 - t0) : ℚ) : ℝ) * Real.log v1)

/-- Walk the node list past the first node: inside a segment interpolate
log-linearly, beyond the last pillar extrapolate along the last segment
(flat forward, per the spec's extrapolation contract). -/
noncomputable def log_linear_walk (t0 : ℚ) (v0 : ℝ) : List (ℚ × ℝ) → ℚ → ℝ
  | [], _ => v0
  | [(t1, v1)], t => log_linear_segment t0 v0 t1 v1 t
  | (t1, v1) :: nd :: rest, t =>
    if t ≤ t1 then log_linear_segment t0 v0 t1 v1 t
    else log_linear_walk t1 v1 (nd :: rest) t

/-- Modelled from the spec: `discount(date)` of the interpolated term
structure (section 4.5) — log-linear between bracketing pillars on the
Actual365Fixed time metric; at or before the first node the first node's
value applies. -/
noncomputable def log_linear_at : List (ℚ × ℝ) → ℚ → ℝ
  | [], _ => 1
  | (t0, v0) :: rest, t => if t ≤ t0 then v0 else log_linear_walk t0 v0 rest t

/-- Modelled from the spec: the external curve's `discount(date)` query,
with times measured by `Actual365Fixed` year fractions from the reference
date (the day count `curve_loaders.py` passes to `ore.DiscountCurve`). -/
noncomputable def curve_discount (c : DiscountCurveModel) (d : OreDate) : ℝ :=
  log_linear_at (c.nodes.map (fun nd => (yearFraction365 c.refDate nd.1, nd.2))) (yearFraction365 c.refDate d)

/-- The pure row-processing of `load_curve_from_csv` (`curve_loaders.py`, and
the identical copy in `converters.py`) on its default
`use_discount_factors=True` path, taking the parsed data rows
`(date, discount_factor, zero_rate)` and the optional `# reference_date`
metadata: fall back to the first data date when the metadata is absent
(`none` when neither exists — the Python code would fail on
`evaluationDate = None`), then prepend the node `(reference date, 1.0)`
(`all_dates = [ref_date] + dates`, `all_values = [1.0] + dfs`) and build the
`ore.DiscountCurve`. -/
def load_curve_from_csv_df (rows : List (OreDate × ℝ × ℝ)) (refOpt : Option OreDate) :
    Option DiscountCurveModel :=
  let dates := rows.map (fun r => r.1)
  let dfs := rows.map (fun r => r.2.1)
  let ref_date := match refOpt with
    | some r => some r
    | none => dates.head?
  match ref_date with
  | none => none
  | some ref => some ⟨ref, (ref, 1) :: dates.zip dfs⟩

/-- Modelled from the spec: the curve produced by the external
`ore.PiecewiseLogLinearDiscount` bootstrap in `XCCYCurveBuilder.build` —
"the curve's reference date is an implicit zeroth pillar with discount
factor = 1.0" ahead of the solved pillars. -/
def bootstrapped_curve (refDate : OreDate) (pillars : List (OreDate × ℝ)) :
    DiscountCurveModel :=
  ⟨refDate, (refDate, 1) :: pillars⟩

/-! ## Concrete data used by witnesses and counterexamples -/

/-- The `MarketDataFactory` USD configuration. -/
def cfgUSD : CurrencyConfig := ⟨"USD", "SOFR", "US-FederalReserve", "Actual360"⟩

/-- The `MarketDataFactory` GBP configuration. -/
def cfgGBP : CurrencyConfig := ⟨"GBP", "SONIA", "UK-Exchange", "Actual365Fixed"⟩

/-- The `MarketDataFactory` JPY configuration. -/
def cfgJPY : CurrencyConfig := ⟨"JPY", "TONAR", "Japan", "Actual365Fixed"⟩

/-- The default valuation date of the factory, 15 January 2024. -/
def d0 : OreDate := ⟨15, 1, 2024⟩

/-- A pillar date one year later. -/
def dEnd : OreDate := ⟨15, 1, 2025⟩

/-- A cut-down GBPUSD market-data snapshot (spot 1.2750, the 3M forward at
−38 pips and the 5Y basis swap at −17.5 bps from the factory data). -/
def mdGBP : XCCYMarketData :=
  mkXCCYMarketData d0 cfgUSD cfgGBP 1.2750 [⟨['3', 'M'], -38⟩] [⟨['5', 'Y'], -17.5⟩] none

/-- A constant external curve used as an opaque input curve. -/
def constCurve : OreCurve := ⟨fun _ => 1, fun _ _ => 0⟩

/-! ## C1 — `get_forward_rate` -/

/-- Behaviour of the lookup loop of `get_forward_rate`: a match yields
`fx_spot + forward_points / 10000` for a matching quote, no match yields the
`ValueError`. -/
theorem get_forward_rate_go_spec (s : ℚ) (t : PyStr) (l : List FXForwardQuote) :
    ((∃ q ∈ l, q.tenor = t) →
      ∃ q ∈ l, q.tenor = t ∧
        get_forward_rate_go s t l = .ok (s + q.forward_points / 10000)) ∧
    ((∀ q ∈ l, q.tenor ≠ t) → get_forward_rate_go s t l = .error "Unknown tenor") := by
  induction l with
  | nil =>
    refine ⟨?_, fun _ => rfl⟩
    rintro ⟨q, hq, -⟩
    exact absurd hq (List.not_mem_nil q)
  | cons f rest ih =>
    by_cases h : f.tenor = t
    · refine ⟨?_, ?_⟩
      · intro _
        exact ⟨f, List.mem_cons_self f rest, h, by simp [get_forward_rate_go, h]⟩
      · intro hall
        exact absurd h (hall f (List.mem_cons_self f rest))
    · refine ⟨?_, ?_⟩
      · rintro ⟨q, hq, hqt⟩
        rcases List.mem_cons.mp hq with rfl | hq'
        · exact absurd hqt h
        · obtain ⟨q', hm, hqt', hres⟩ := ih.1 ⟨q, hq', hqt⟩
          exact ⟨q', List.mem_cons_of_mem f hm, hqt',
            by simpa [get_forward_rate_go, h] using hres⟩
      · intro hall
        have hrest := ih.2 (fun q hq => hall q (List.mem_cons_of_mem f hq))
        simpa [get_forward_rate_go, h] using hrest

/-- C1: whenever `fx_forwards` contains a quote with the requested tenor,
`get_forward_rate` returns `fx_spot + forward_points / 10000` for a matching
quote; with no matching quote it raises (`ValueError: Unknown tenor`). -/
theorem C1_get_forward_rate (md : XCCYMarketData) (t : PyStr) :
    ((∃ q ∈ md.fx_forwards, q.tenor = t) →
      ∃ q ∈ md.fx_forwards, q.tenor = t ∧
        get_forward_rate md t = .ok (md.fx_spot + q.forward_points / 10000)) ∧
    ((∀ q ∈ md.fx_forwards, q.tenor ≠ t) →
      get_forward_rate md t = .error "Unknown tenor") :=
  get_forward_rate_go_spec md.fx_spot t md.fx_forwards

/-- Witness for C1 on the factory GBPUSD data: the 3M quote at −38 pips
gives the outright forward 1.2750 − 0.0038 = 1.2712, and an absent tenor
raises. -/
theorem C1_witness :
    (∃ q ∈ mdGBP.fx_forwards, q.tenor = ['3', 'M'] ∧
      get_forward_rate mdGBP ['3', 'M'] = .ok (mdGBP.fx_spot + q.forward_points / 10000)) ∧
    get_forward_rate mdGBP ['3', 'M'] = .ok 1.2712 ∧
    get_forward_rate mdGBP ['7', 'Y'] = .error "Unknown tenor" :=
  ⟨(C1_get_forward_rate mdGBP ['3', 'M']).1 ⟨⟨['3', 'M'], -38⟩, by decide, rfl⟩,
   by norm_num [get_forward_rate, get_forward_rate_go, mdGBP, mkXCCYMarketData],
   (C1_get_forward_rate mdGBP ['7', 'Y']).2 (by decide)⟩

/-! ## C7 — `_tenor_to_period` -/

/-- C7: a tenor string not ending in `W`, `M` or `Y` raises; a string
`<n>W` / `<n>M` / `<n>Y` whose prefix parses as the integer `n` yields a
period of `n` weeks / months / years. -/
theorem C7_tenor_to_period :
    (∀ s : PyStr, (∀ c, s.getLast? = some c → c ≠ 'W' ∧ c ≠ 'M' ∧ c ≠ 'Y') →
      ∃ msg, tenor_to_period s = .error msg) ∧
    (∀ (s : PyStr) (n : Int), pyInt s = some n →
      tenor_to_period (s ++ ['W']) = .ok ⟨n, .weeks⟩ ∧
      tenor_to_period (s ++ ['M']) = .ok ⟨n, .months⟩ ∧
      tenor_to_period (s ++ ['Y']) = .ok ⟨n, .years⟩) := by
  constructor
  · intro s hs
    match hg : s.getLast? with
    | none => exact ⟨"Unknown tenor format", by simp [tenor_to_period, hg]⟩
    | some c =>
      obtain ⟨hW, hM, hY⟩ := hs c hg
      exact ⟨"Unknown tenor format", by simp [tenor_to_period, hg, hW, hM, hY]⟩
  · intro s n h
    refine ⟨?_, ?_, ?_⟩ <;>
      simp [tenor_to_period, List.getLast?_concat, List.dropLast_concat, h]

/-- Witness for C7 at concrete tenors: `3W`, `12M`, `5Y` parse; `3D` raises. -/
theorem C7_witness :
    tenor_to_period ['3', 'W'] = .ok ⟨3, .weeks⟩ ∧
    tenor_to_period ['1', '2', 'M'] = .ok ⟨12, .months⟩ ∧
    tenor_to_period ['5', 'Y'] = .ok ⟨5, .years⟩ ∧
    ∃ msg, tenor_to_period ['3', 'D'] = .error msg := by
  refine ⟨(C7_tenor_to_period.2 ['3'] 3 (by decide)).1,
    (C7_tenor_to_period.2 ['1', '2'] 12 (by decide)).2.1,
    (C7_tenor_to_period.2 ['5'] 5 (by decide)).2.2,
    C7_tenor_to_period.1 ['3', 'D'] ?_⟩
  intro c hc
  have : c = 'D' := by simpa using hc.symm
  subst this
  decide

/-! ## C8 — `ore_handle_to_curve` -/

/-- C8: the extraction returns the underlying curve exactly when the handle
is linked, and raises exactly when the handle was never linked. -/
theorem C8_ore_handle_to_curve (h : Option OreCurve) :
    (∀ c, ore_handle_to_curve h = .ok c ↔ h = some c) ∧
    (h = none →
      ore_handle_to_curve h = .error "Handle is empty - not linked to any curve") := by
  cases h with
  | none =>
    refine ⟨fun c => ?_, fun _ => rfl⟩
    simp [ore_handle_to_curve]
  | some c0 =>
    refine ⟨fun c => ?_, fun hc => by cases hc⟩
    simp [ore_handle_to_curve]

/-- Witness for C8: a linked handle yields its curve, an unlinked one raises. -/
theorem C8_witness :
    ore_handle_to_curve (some constCurve) = .ok constCurve ∧
    ore_handle_to_curve (none : Option OreCurve) =
      .error "Handle is empty - not linked to any curve" :=
  ⟨((C8_ore_handle_to_curve (some constCurve)).1 constCurve).mpr rfl,
   (C8_ore_handle_to_curve none).2 rfl⟩

/-! ## C9 — query guards of `XCCYCurveBuilder` -/

/-- C9: before `build()` has assigned `foreign_xccy_curve`, the three query
methods raise `ValueError("XCCY curve not built. Call build() first.")`;
after the assignment performed by `build()` they return values. -/
theorem C9_queries_require_build (b : XCCYCurveBuilderState) (d : OreDate)
    (comp : String) :
    (b.foreign_xccy_curve = none →
      get_discount_factor b d = .error "XCCY curve not built. Call build() first." ∧
      get_zero_rate b d comp = .error "XCCY curve not built. Call build() first." ∧
      get_implied_fx_forward b d = .error "XCCY curve not built. Call build() first.") ∧
    (∀ c : OreCurve,
      (∃ v, get_discount_factor (build_assign b c) d = .ok v) ∧
      (∃ v, get_zero_rate (build_assign b c) d comp = .ok v) ∧
      (∃ v, get_implied_fx_forward (build_assign b c) d = .ok v)) := by
  constructor
  · intro hn
    refine ⟨?_, ?_, ?_⟩ <;>
      simp [get_discount_factor, get_zero_rate, get_implied_fx_forward, hn]
  · intro c
    exact ⟨⟨_, rfl⟩, ⟨_, rfl⟩, ⟨_, rfl⟩⟩

/-- A builder in its freshly constructed state (`foreign_xccy_curve = None`). -/
def builder0 : XCCYCurveBuilderState :=
  ⟨mdGBP, constCurve, constCurve, constCurve, none⟩

/-- Witness for C9 on a concrete unbuilt builder and its built counterpart. -/
theorem C9_witness :
    (get_discount_factor builder0 d0 = .error "XCCY curve not built. Call build() first." ∧
      get_zero_rate builder0 d0 "continuous" =
        .error "XCCY curve not built. Call build() first." ∧
      get_implied_fx_forward builder0 d0 =
        .error "XCCY curve not built. Call build() first.") ∧
    ((∃ v, get_discount_factor (build_assign builder0 constCurve) d0 = .ok v) ∧
      (∃ v, get_zero_rate (build_assign builder0 constCurve) d0 "continuous" = .ok v) ∧
      (∃ v, get_implied_fx_forward (build_assign builder0 constCurve) d0 = .ok v)) :=
  ⟨(C9_queries_require_build builder0 d0 "continuous").1 rfl,
   (C9_queries_require_build builder0 d0 "continuous").2 constCurve⟩

/-! ## C4 — `is_fx_base_domestic` -/

/-- A degenerate snapshot in which the foreign currency configuration reuses
the domestic currency code; nothing in `XCCYMarketData` forbids it. -/
def mdDegenerate : XCCYMarketData :=
  mkXCCYMarketData d0 cfgUSD cfgUSD 1 [] [] none

/-- Counterexample to C4 as stated: with `fx_base_ccy` not supplied it is
indeed defaulted to the foreign currency code, yet `is_fx_base_domestic` is
`True` (not `False` as the claim asserts), because the foreign code equals
the domestic code. -/
theorem C4_counterexample :
    mdDegenerate.fx_base_ccy = mdDegenerate.foreign_ccy.ccy ∧
    is_fx_base_domestic mdDegenerate = true := by
  exact ⟨rfl, by decide⟩

/-- C4 (amended): `is_fx_base_domestic` is `True` exactly when
`fx_base_ccy` equals the domestic currency code; a construction without
`fx_base_ccy` defaults it to the foreign currency code, making the flag
`True` exactly when the foreign code equals the domestic code (hence
`False` whenever the two currency codes differ). -/
theorem C4_is_fx_base_domestic (vd : OreDate) (dom fgn : CurrencyConfig)
    (spot : ℚ) (fwds : List FXForwardQuote) (swaps : List XCCYBasisSwapQuote)
    (base : Option String) :
    (is_fx_base_domestic (mkXCCYMarketData vd dom fgn spot fwds swaps base) = true ↔
      (mkXCCYMarketData vd dom fgn spot fwds swaps base).fx_base_ccy = dom.ccy) ∧
    (base = none →
      (mkXCCYMarketData vd dom fgn spot fwds swaps base).fx_base_ccy = fgn.ccy ∧
      (is_fx_base_domestic (mkXCCYMarketData vd dom fgn spot fwds swaps base) = true ↔
        fgn.ccy = dom.ccy)) := by
  refine ⟨?_, ?_⟩
  · simp [is_fx_base_domestic, mkXCCYMarketData]
  · rintro rfl
    exact ⟨rfl, by simp [is_fx_base_domestic, mkXCCYMarketData]⟩

/-- Witness for C4 on the GBPUSD configuration: defaulted FX base is `GBP`
and the flag is `False` since `GBP ≠ USD`. -/
theorem C4_witness :
    (mkXCCYMarketData d0 cfgUSD cfgGBP 1.2750 [] [] none).fx_base_ccy = cfgGBP.ccy ∧
    (is_fx_base_domestic (mkXCCYMarketData d0 cfgUSD cfgGBP 1.2750 [] [] none) = true ↔
      cfgGBP.ccy = cfgUSD.ccy) :=
  (C4_is_fx_base_domestic d0 cfgUSD cfgGBP 1.2750 [] [] none).2 rfl

/-! ## C5 — `get_implied_fx_forward` and orientation -/

/-- A USDJPY-style snapshot: the FX base currency is the domestic currency,
so `is_fx_base_domestic` is `True`. -/
def mdJPY : XCCYMarketData :=
  mkXCCYMarketData d0 cfgUSD cfgJPY 148.50 [] [] (some "USD")

/-- A domestic discount curve with discount factor 9/10 everywhere. -/
def curveDom : OreCurve := ⟨fun _ => 9 / 10, fun _ _ => 0⟩

/-- A solved foreign curve with discount factor 4/5 everywhere. -/
def curveFor : OreCurve := ⟨fun _ => 4 / 5, fun _ _ => 0⟩

/-- A built USDJPY builder state. -/
def builderJPY : XCCYCurveBuilderState :=
  ⟨mdJPY, curveDom, constCurve, constCurve, some curveFor⟩

/-- Counterexample to C5 as stated: on a built curve whose market data has
`is_fx_base_domestic = True`, `get_implied_fx_forward` does not return the
orientation-dependent value of the spec formula — the code uses
`fx_spot * (df_domestic / df_foreign)` unconditionally, ignoring the flag. -/
theorem C5_counterexample :
    is_fx_base_domestic builderJPY.market_data = true ∧
    builderJPY.foreign_xccy_curve = some curveFor ∧
    get_implied_fx_forward builderJPY d0 ≠
      .ok (spec_implied_fx_forward (is_fx_base_domestic builderJPY.market_data)
        builderJPY.market_data.fx_spot
        (builderJPY.domestic_discount_curve.discountF d0) (curveFor.discountF d0)) := by
  refine ⟨by decide, rfl, ?_⟩
  simp only [get_implied_fx_forward, spec_implied_fx_forward, builderJPY, mdJPY,
    mkXCCYMarketData, is_fx_base_domestic, curveDom, curveFor, constCurve, cfgUSD, cfgJPY]
  norm_num

/-- C5 (amended): for every built curve, `get_implied_fx_forward` returns
`fx_spot * (domestic_df / foreign_df)` in that fixed orientation, and the
result is independent of `is_fx_base_domestic` (replacing `fx_base_ccy` by
any string leaves it unchanged). -/
theorem C5_implied_fx_forward (b : XCCYCurveBuilderState) (d : OreDate)
    (c : OreCurve) (h : b.foreign_xccy_curve = some c) :
    get_implied_fx_forward b d =
      .ok (b.market_data.fx_spot *
        (b.domestic_discount_curve.discountF d / c.discountF d)) ∧
    ∀ s : String,
      get_implied_fx_forward
        { b with market_data := { b.market_data with fx_base_ccy := s } } d =
      get_implied_fx_forward b d := by
  refine ⟨by simp [get_implied_fx_forward, h], fun s => ?_⟩
  simp [get_implied_fx_forward, h]

/-- Witness for C5 on the built USDJPY builder. -/
theorem C5_witness :
    get_implied_fx_forward builderJPY d0 =
      .ok (builderJPY.market_data.fx_spot *
        (builderJPY.domestic_discount_curve.discountF d0 / curveFor.discountF d0)) ∧
    ∀ s : String,
      get_implied_fx_forward
        { builderJPY with
          market_data := { builderJPY.market_data with fx_base_ccy := s } } d0 =
      get_implied_fx_forward builderJPY d0 :=
  C5_implied_fx_forward builderJPY d0 curveFor rfl

/-! ## C6 — registry `register` -/

/-- A registry holding one entry, as the class-level registries hold the
built-in names (constructor tags are opaque). -/
def reg0 : List (String × Nat) := [("SOFR", 0)]

/-- Counterexample to C6 as stated: registering a constructor under an
already-present name silently replaces the existing mapping. -/
theorem C6_counterexample :
    dict_get (register reg0 "SOFR" 1) "SOFR" = some 1 ∧
    dict_get (register reg0 "SOFR" 1) "SOFR" ≠ dict_get reg0 "SOFR" := by
  decide

/-- The dict-assignment model: the assigned key maps to the new value. -/
theorem dict_get_set_self (reg : List (String × Nat)) (n : String) (v : Nat) :
    dict_get (dict_set reg n v) n = some v := by
  induction reg with
  | nil => simp [dict_set, dict_get]
  | cons kv rest ih =>
    by_cases h : kv.1 = n
    · simp [dict_set, dict_get, h]
    · simp [dict_set, dict_get, h, ih]

/-- The dict-assignment model: other keys are untouched. -/
theorem dict_get_set_other (reg : List (String × Nat)) (n m : String) (v : Nat)
    (h : m ≠ n) : dict_get (dict_set reg n v) m = dict_get reg m := by
  induction reg with
  | nil => simp [dict_set, dict_get, Ne.symm h]
  | cons kv rest ih =>
    by_cases hk : kv.1 = n
    · simp [dict_set, dict_get, hk, Ne.symm h]
    · by_cases hm : kv.1 = m
      · simp [dict_set, dict_get, hk, hm, h]
      · simp [dict_set, dict_get, hk, hm, ih]

/-- C6 (amended): `register` performs an unconditional dict assignment —
after `register(name, c)` the registry maps `name` to `c`, silently
overwriting any existing entry and leaving every other name unchanged. -/
theorem C6_register_overwrites (reg : List (String × Nat)) (name : String)
    (c : Nat) :
    dict_get (register reg name c) name = some c ∧
    ∀ m, m ≠ name → dict_get (register reg name c) m = dict_get reg m := by
  exact ⟨dict_get_set_self reg name c,
    fun m hm => dict_get_set_other reg name m c hm⟩

/-- Witness for C6 on a concrete registry. -/
theorem C6_witness :
    dict_get (register reg0 "ESTR" 7) "ESTR" = some 7 ∧
    dict_get (register reg0 "ESTR" 7) "SOFR" = dict_get reg0 "SOFR" :=
  ⟨(C6_register_overwrites reg0 "ESTR" 7).1,
   (C6_register_overwrites reg0 "ESTR" 7).2 "SOFR" (by decide)⟩

/-! ## C3 — absence of duplicate/ordering validation in `build` -/

/-- A GBPUSD snapshot whose FX-forward list carries the `3M` tenor twice
with different forward points. -/
def mdDup : XCCYMarketData :=
  mkXCCYMarketData d0 cfgUSD cfgGBP 1.2750
    [⟨['3', 'M'], -38⟩, ⟨['3', 'M'], -40⟩] [] none

/-- Counterexample to C3 as stated: running the builder's helper
construction on market data with two quotes sharing the `3M` tenor raises
nothing — it returns one helper per quote, both with the same 3-month
maturity period, and defers any clash to the external bootstrap engine. -/
theorem C3_counterexample :
    build_helpers mdDup =
      .ok [Helper.fxSwap (-38 / 10000) ⟨3, .months⟩ false,
           Helper.fxSwap (-40 / 10000) ⟨3, .months⟩ false] := by
  rfl

/-- Traversal of an `Except`-valued map: when every element maps to `ok`,
the traversal is `ok` and preserves length. -/
theorem mapM_except_ok {α β : Type} (f : α → Except String β) :
    ∀ l : List α, (∀ a ∈ l, ∃ b, f a = .ok b) →
      ∃ bs, l.mapM f = .ok bs ∧ bs.length = l.length := by
  intro l
  induction l with
  | nil => exact fun _ => ⟨[], rfl, rfl⟩
  | cons a l ih =>
    intro h
    obtain ⟨b, hb⟩ := h a (List.mem_cons_self a l)
    obtain ⟨bs, hbs, hlen⟩ := ih (fun x hx => h x (List.mem_cons_of_mem a hx))
    refine ⟨b :: bs, ?_, by simp [hlen]⟩
    rw [List.mapM_cons, hb, hbs]
    rfl

/-- C3 (amended): `build` performs no duplicate-tenor or ordering check —
for any market data whose tenor strings all parse, helper construction
succeeds with exactly one helper per quote (duplicates and out-of-order
maturities included, none dropped); clashes surface only later, inside the
external piecewise bootstrap, not as a `ConfigurationError` at
construction. -/
theorem C3_no_duplicate_validation (md : XCCYMarketData)
    (hfx : ∀ q ∈ md.fx_forwards, ∃ p, tenor_to_period q.tenor = .ok p)
    (hsw : ∀ q ∈ md.xccy_basis_swaps, ∃ p, tenor_to_period q.tenor = .ok p) :
    ∃ hs, build_helpers md = .ok hs ∧
      hs.length = md.fx_forwards.length + md.xccy_basis_swaps.length := by
  obtain ⟨fx, hfx2, hfxlen⟩ :=
    mapM_except_ok
      (fun fwd => (tenor_to_period fwd.tenor).map
        (fun period => Helper.fxSwap (fwd.forward_points / 10000) period
          (is_fx_base_domestic md)))
      md.fx_forwards
      (fun q hq => by
        obtain ⟨p, hp⟩ := hfx q hq
        have : (tenor_to_period q.tenor).map
            (fun period => Helper.fxSwap (q.forward_points / 10000) period
              (is_fx_base_domestic md)) =
            .ok (Helper.fxSwap (q.forward_points / 10000) p (is_fx_base_domestic md)) := by
          rw [hp]; rfl
        exact ⟨_, this⟩)
  obtain ⟨sw, hsw2, hswlen⟩ :=
    mapM_except_ok
      (fun swap => (tenor_to_period swap.tenor).map
        (fun period => Helper.xccyBasisMtMReset (swap.basis_spread / 10000) period))
      md.xccy_basis_swaps
      (fun q hq => by
        obtain ⟨p, hp⟩ := hsw q hq
        have : (tenor_to_period q.tenor).map
            (fun period => Helper.xccyBasisMtMReset (q.basis_spread / 10000) period) =
            .ok (Helper.xccyBasisMtMReset (q.basis_spread / 10000) p) := by
          rw [hp]; rfl
        exact ⟨_, this⟩)
  refine ⟨fx ++ sw, ?_, by simp [hfxlen, hswlen]⟩
  unfold build_helpers
  rw [hfx2, hsw2]
  rfl

/-- Witness for C3 (amended) at the duplicate-tenor snapshot. -/
theorem C3_witness :
    ∃ hs, build_helpers mdDup = .ok hs ∧
      hs.length = mdDup.fx_forwards.length + mdDup.xccy_basis_swaps.length := by
  refine C3_no_duplicate_validation mdDup ?_ ?_
  · intro q hq
    have : q = ⟨['3', 'M'], -38⟩ ∨ q = ⟨['3', 'M'], -40⟩ := by
      simpa [mdDup, mkXCCYMarketData] using hq
    rcases this with rfl | rfl
    · exact ⟨⟨3, .months⟩, by decide⟩
    · exact ⟨⟨3, .months⟩, by decide⟩
  · intro q hq
    exact absurd hq (by simp [mdDup, mkXCCYMarketData])

/-! ## C2 — reference-date identity -/

/-- The Actual365Fixed year fraction from a date to itself is zero. -/
theorem yearFraction365_self (d : OreDate) : yearFraction365 d d = 0 := by
  simp [yearFraction365]

/-- C2: `discount(referenceDate) == 1.0` exactly, both for the curve built
by `build()` (whose reference date is the implicit zeroth pillar with
discount factor 1.0) and for any curve reconstructed by
`load_curve_from_csv`, which prepends the node `(reference date, 1.0)`. -/
theorem C2_discount_refdate_one :
    (∀ (ref : OreDate) (pillars : List (OreDate × ℝ)),
      curve_discount (bootstrapped_curve ref pillars) ref = 1) ∧
    (∀ (rows : List (OreDate × ℝ × ℝ)) (refOpt : Option OreDate)
      (c : DiscountCurveModel), load_curve_from_csv_df rows refOpt = some c →
        curve_discount c c.refDate = 1) := by
  have key : ∀ (ref : OreDate) (nodes : List (OreDate × ℝ)),
      curve_discount ⟨ref, (ref, 1) :: nodes⟩ ref = 1 := by
    intro ref nodes
    simp [curve_discount, log_linear_at, yearFraction365_self]
  refine ⟨fun ref pillars => key ref pillars, ?_⟩
  intro rows refOpt c h
  cases refOpt with
  | some r =>
    unfold load_curve_from_csv_df at h
    simp only [Option.some.injEq] at h
    subst h
    exact key r _
  | none =>
    cases rows with
    | nil => exact absurd h (by simp [load_curve_from_csv_df])
    | cons rw rws =>
      unfold load_curve_from_csv_df at h
      simp only [List.map_cons, List.head?_cons, Option.some.injEq] at h
      subst h
      exact key rw.1 _

/-- Witness for C2: a one-pillar bootstrapped curve and a curve loaded from
an empty row set both discount the reference date to exactly 1. -/
theorem C2_witness :
    curve_discount (bootstrapped_curve d0 [(dEnd, (1 : ℝ) / 2)]) d0 = 1 ∧
    load_curve_from_csv_df [] (some d0) = some ⟨d0, [(d0, 1)]⟩ ∧
    curve_discount ⟨d0, [(d0, (1 : ℝ))]⟩ d0 = 1 :=
  ⟨C2_discount_refdate_one.1 d0 [(dEnd, (1 : ℝ) / 2)], rfl,
   C2_discount_refdate_one.2 [] (some d0) ⟨d0, [(d0, 1)]⟩ rfl⟩

/-! ## C10 — ISO round trip: supporting lemmas on decimal rendering -/

/-- `Nat.digitChar` of a decimal digit is a digit character. -/
theorem isDigit_digitChar {d : Nat} (h : d < 10) :
    (Nat.digitChar d).isDigit = true := by
  interval_cases d <;> decide

/-- `digitVal` inverts `Nat.digitChar` on decimal digits. -/
theorem digitVal_digitChar {d : Nat} (h : d < 10) :
    digitVal (Nat.digitChar d) = d := by
  interval_cases d <;> decide

/-- A digit character is not the separator `-`. -/
theorem isDigit_ne_dash {c : Char} (h : c.isDigit = true) : c ≠ '-' := by
  intro hc
  subst hc
  exact absurd h (by decide)

/-- A digit character is not a sign `+`. -/
theorem isDigit_ne_plus {c : Char} (h : c.isDigit = true) : c ≠ '+' := by
  intro hc
  subst hc
  exact absurd h (by decide)

/-- Every character of a rendered natural number is a decimal digit. -/
theorem natToChars_all_digits (n : Nat) :
    (natToChars n).all Char.isDigit = true := by
  unfold natToChars
  by_cases h : n = 0
  · simp [h]
  · rw [if_neg h, List.all_eq_true]
    intro c hc
    rw [List.mem_reverse, List.mem_map] at hc
    obtain ⟨d, hd, rfl⟩ := hc
    exact isDigit_digitChar (Nat.digits_lt_base (by norm_num) hd)

/-- A rendered natural number is nonempty. -/
theorem natToChars_ne_nil (n : Nat) : natToChars n ≠ [] := by
  unfold natToChars
  by_cases h : n = 0
  · simp [h]
  · rw [if_neg h]
    simp [Nat.digits_ne_nil_iff_ne_zero.mpr h]

/-- The separator `-` never occurs in a rendered natural number. -/
theorem dash_not_mem_natToChars (n : Nat) : '-' ∉ natToChars n := by
  intro hc
  have := List.all_eq_true.mp (natToChars_all_digits n) '-' hc
  exact absurd this (by decide)

/-- The separator `-` never occurs in a zero-padded component. -/
theorem dash_not_mem_pad2 (n : Nat) : '-' ∉ pad2 n := by
  unfold pad2
  by_cases h : n < 10
  · rw [if_pos h]
    intro hc
    rcases List.mem_cons.mp hc with hc | hc
    · exact absurd hc (by decide)
    · exact dash_not_mem_natToChars n hc
  · rw [if_neg h]
    exact dash_not_mem_natToChars n

/-- Value of the decimal fold over a reversed little-endian digit list. -/
theorem foldl_digit_acc (ds : List Nat) (a : Nat) :
    List.foldl (fun x d => x * 10 + d) a ds.reverse =
      a * 10 ^ ds.length + Nat.ofDigits 10 ds := by
  induction ds generalizing a with
  | nil => simp
  | cons d ds ih =>
    rw [List.reverse_cons, List.foldl_append, ih]
    simp only [List.foldl_cons, List.foldl_nil, List.length_cons, Nat.ofDigits_cons]
    ring

/-- The decimal fold undoes the decimal rendering. -/
theorem digitsVal_natToChars (n : Nat) : digitsVal (natToChars n) = n := by
  by_cases h : n = 0
  · subst h; rfl
  · unfold natToChars digitsVal
    rw [if_neg h, ← List.map_reverse, List.foldl_map]
    have step : ∀ (l : List Nat), (∀ d ∈ l, d < 10) → ∀ a : Nat,
        List.foldl (fun x d => x * 10 + digitVal (Nat.digitChar d)) a l =
        List.foldl (fun x d => x * 10 + d) a l := by
      intro l hl
      induction l with
      | nil => intro a; rfl
      | cons d ds ih =>
        intro a
        rw [List.foldl_cons, List.foldl_cons,
          digitVal_digitChar (hl d (List.mem_cons_self d ds)),
          ih (fun x hx => hl x (List.mem_cons_of_mem d hx))]
    rw [step _ (fun d hd =>
      Nat.digits_lt_base (by norm_num) (List.mem_reverse.mp hd)) 0]
    rw [foldl_digit_acc]
    simp [Nat.ofDigits_digits]

/-- `int()` parses an all-digit nonempty string to its decimal value. -/
theorem pyInt_of_digits (s : PyStr) (h1 : s ≠ [])
    (h2 : s.all Char.isDigit = true) : pyInt s = some (digitsVal s : Int) := by
  cases s with
  | nil => exact absurd rfl h1
  | cons c rest =>
    have hc : c.isDigit = true := by
      simpa using List.all_eq_true.mp h2 c (List.mem_cons_self c rest)
    simp only [pyInt]
    rw [if_neg (isDigit_ne_dash hc), if_neg (isDigit_ne_plus hc)]
    unfold pyIntNatCore
    rw [if_pos ⟨by simp, h2⟩]
    rfl

/-- `int()` inverts the decimal rendering. -/
theorem pyInt_natToChars (n : Nat) : pyInt (natToChars n) = some (n : Int) := by
  rw [pyInt_of_digits _ (natToChars_ne_nil n) (natToChars_all_digits n),
    digitsVal_natToChars]

/-- A leading zero does not change the parsed decimal value. -/
theorem digitsVal_cons_zero (l : PyStr) : digitsVal ('0' :: l) = digitsVal l := rfl

/-- `int()` inverts the two-character zero-padded rendering. -/
theorem pyInt_pad2 (n : Nat) : pyInt (pad2 n) = some (n : Int) := by
  unfold pad2
  by_cases h : n < 10
  · rw [if_pos h]
    rw [pyInt_of_digits _ (by simp)
      (by simp [List.all_cons, natToChars_all_digits n]),
      digitsVal_cons_zero, digitsVal_natToChars]
  · rw [if_neg h]
    exact pyInt_natToChars n

/-! ## C10 — split lemmas -/

/-- Splitting a dash-free string yields the string itself. -/
theorem splitDash_no_dash (l : PyStr) (h : '-' ∉ l) : splitDash l = [l] := by
  induction l with
  | nil => rfl
  | cons c rest ih =>
    have hc : c ≠ '-' := fun e => h (e ▸ List.mem_cons_self c rest)
    have hrest : '-' ∉ rest := fun m => h (List.mem_cons_of_mem c m)
    simp [splitDash, hc, ih hrest]

/-- Splitting at the first dash peels off the dash-free head. -/
theorem splitDash_append (a rest : PyStr) (h : '-' ∉ a) :
    splitDash (a ++ '-' :: rest) = a :: splitDash rest := by
  induction a with
  | nil => simp [splitDash]
  | cons c as ih =>
    have hc : c ≠ '-' := fun e => h (e ▸ List.mem_cons_self c as)
    have has : '-' ∉ as := fun m => h (List.mem_cons_of_mem c m)
    rw [List.cons_append]
    simp only [splitDash, if_neg hc, ih has]

/-! ## C10 — the round trip itself -/

/-- C10: for every valid date, parsing the zero-padded `YYYY-MM-DD`
serialisation returns the original date. -/
theorem C10_iso_round_trip (d : OreDate) (h : validDate d) :
    iso_to_ore_date (ore_date_to_iso d) = some d := by
  obtain ⟨h1, h2, h3, h4, h5, h6⟩ := h
  unfold ore_date_to_iso iso_to_ore_date
  rw [splitDash_append _ _ (dash_not_mem_natToChars d.year),
    splitDash_append _ _ (dash_not_mem_pad2 d.month),
    splitDash_no_dash _ (dash_not_mem_pad2 d.day)]
  simp only [pyInt_natToChars, pyInt_pad2]
  unfold mkOreDate
  rw [if_pos]
  · simp
  · refine ⟨by exact_mod_cast h1, by exact_mod_cast h2, by exact_mod_cast h3,
      by exact_mod_cast h4, by exact_mod_cast h5, ?_⟩
    simp only [Int.toNat_natCast]
    exact_mod_cast h6

/-- Witness for C10 at the factory valuation date 2024-01-15. -/
theorem C10_witness :
    validDate d0 ∧ iso_to_ore_date (ore_date_to_iso d0) = some d0 :=
  ⟨by decide, C10_iso_round_trip d0 (by decide)⟩

end OreXccy
